import Mathlib

/-!
Shallow embedding of `src/app_transform.py` (the picture-in-picture batch
reformatter) and proofs about its geometry planner (`resize_type`), canvas
compositor (`add_pip_vars`), renderer/writer (`process_image`) and the
`__main__` batch loop.

Modelling conventions:
* A decoded OpenCV image (`cv2.imread` result) is an `Img`: a height, a
  width and a pixel function on three channels.  `cv2.imread` itself (file
  decoding) is an external collaborator and is abstracted away: pipeline
  functions receive the decoded `Img` directly.
* Python `float` arithmetic is modelled by exact rational arithmetic (ℚ).
  The program's screen factor `0.75` is exactly representable in binary64
  and is modelled as `3/4`.  Python `int(...)` applied to a nonnegative
  float is floor; it is modelled with `Rat.floor ... |>.toNat`.  For the
  numpy expression `(defined_res - proposed_res)/2`, whose entries can in
  principle be negative, `int(...)` truncates toward zero and is modelled
  by `halfTrunc` on ℤ.
* The module-level scratch dictionary `img_vars` is modelled as a record
  that is threaded through the loop; `resize_type` overwrites all of its
  keys except `canvas`/`pip_coords` (which it never touches) and
  `add_pip_vars` overwrites those two.  The keys `canvas` and `pip_coords`
  are absent before the first iteration, hence `Option`; all other keys
  are written before they are ever read, so they carry plain values and an
  arbitrary initial record stands for the initial `defaultdict()`.
* `cv2.resize` interpolation is modelled as a deterministic resampling
  function of the source pixels; no claim depends on the interpolation
  kernel, only on the produced dimensions and on determinism.
* `cv2.imwrite` (file output) is modelled by returning the written buffer
  together with its destination path.
-/

/-- A decoded image: height, width, and a 3-channel pixel buffer. -/
structure Img where
  height : Nat
  width : Nat
  px : Nat → Nat → Fin 3 → Nat

/-- A parsed `datetime` value as produced by `valid_date`. -/
structure DateTime where
  year : Nat
  month : Nat
  day : Nat
  hour : Nat
  minute : Nat
deriving DecidableEq

/-- Placement rectangle stored under the `pip_coords` key
(`{'x1':..,'x2':..,'y1':..,'y2':..}`). -/
structure PipCoords where
  x1 : Int
  x2 : Int
  y1 : Int
  y2 : Int
deriving DecidableEq

/-- The module-level scratch dictionary `img_vars` (a `defaultdict`).
The python dict key `img_aspect_ratio` is modelled by the field
`img_aspect`.  `canvas` and `pip_coords` are `Option` because they are
absent until `add_pip_vars` first writes them. -/
structure ImgVars where
  img_obj : Img
  img_res : Nat × Nat
  img_aspect : ℚ
  defined_res : Nat × Nat
  screen_factor : ℚ
  proposed_res : Nat × Nat
  proposed_resize_dir : String
  scale_tolerance : Nat
  proposed_resize_factor : Nat
  resize_validity : Option Bool
  canvas : Option Img
  pip_coords : Option PipCoords

/-- `ig_defined_res = (1920, 1080)`: IG story max screen resolution,
height x width order (opencv follows numpy orientation). -/
def ig_defined_res : Nat × Nat := (1920, 1080)

/-- `screen_factor = .75` (the binary64 value 0.75 is exactly 3/4). -/
def screen_factor : ℚ := 3/4

/-- `scale_tolerance = 2`. -/
def scale_tolerance : Nat := 2

/-- Python `int(...)` on the possibly-negative float `d/2`:
truncation toward zero. -/
def halfTrunc (d : Int) : Int := Int.sign d * (d.natAbs / 2)

/-- The geometry planner `resize_type`.  It receives the previous contents
of the scratch dictionary (`prev`) and the decoded input image, and
overwrites every key except `canvas` and `pip_coords`.  Mirrors
`src/app_transform.py` lines 44-79. -/
def resize_type (prev : ImgVars) (img : Img) (defined_res : Nat × Nat)
    (factor : ℚ) (tol : Nat) : ImgVars :=
  let img_res : Nat × Nat := (img.height, img.width)
  let aspect : ℚ := (img_res.2 : ℚ) / (img_res.1 : ℚ)
  let proposed_width : Nat := (Rat.floor (factor * (defined_res.2 : ℚ))).toNat
  let proposed_height : Nat := (Rat.floor ((proposed_width : ℚ) / aspect)).toNat
  let proposed : Nat × Nat :=
    if proposed_height ≤ defined_res.1 then (proposed_height, proposed_width)
    else
      let ph : Nat := (Rat.floor (factor * (defined_res.1 : ℚ))).toNat
      let pw : Nat := (Rat.floor ((ph : ℚ) * aspect)).toNat
      (ph, pw)
  let dir : String := if proposed.2 ≤ img_res.2 then "shrink" else "scale"
  let rfactor : Nat := (Rat.floor ((proposed.2 : ℚ) / (img_res.2 : ℚ))).toNat
  { prev with
    img_obj := img
    img_res := img_res
    img_aspect := aspect
    defined_res := defined_res
    screen_factor := factor
    proposed_res := proposed
    proposed_resize_dir := dir
    scale_tolerance := tol
    proposed_resize_factor := rfactor
    resize_validity :=
      if dir = "scale" then some (decide (rfactor ≤ tol))
      else if dir = "shrink" then none
      else prev.resize_validity }

/-- The canvas compositor `add_pip_vars`: allocates the gray canvas
(fill value 128 per channel) at `defined_res` and computes the centered
placement rectangle.  Mirrors `src/app_transform.py` lines 87-100. -/
def add_pip_vars (s : ImgVars) : ImgVars :=
  let height := s.defined_res.1
  let width := s.defined_res.2
  let colored_image : Img :=
    { height := height, width := width, px := fun _ _ _ => 128 }
  let y1 : Int := halfTrunc ((height : Int) - (s.proposed_res.1 : Int))
  let x1 : Int := halfTrunc ((width : Int) - (s.proposed_res.2 : Int))
  let x2 : Int := x1 + (s.proposed_res.2 : Int)
  let y2 : Int := y1 + (s.proposed_res.1 : Int)
  { s with
    canvas := some colored_image
    pip_coords := some { x1 := x1, x2 := x2, y1 := y1, y2 := y2 } }

/-- Model of `cv2.resize(img, (w, h))`: a deterministic resampling to the
requested dimensions (the interpolation kernel is irrelevant to every
claim; only the output shape and determinism matter). -/
def cvResize (img : Img) (w h : Nat) : Img :=
  { height := h, width := w
    px := fun y x c => img.px (y * img.height / h) (x * img.width / w) c }

/-- Model of the numpy slice assignment
`canvas[y1:y2, x1:x2] = resized` for an in-bounds rectangle. -/
def pasteRegion (canvas : Img) (p : PipCoords) (resized : Img) : Img :=
  { canvas with
    px := fun y x c =>
      if p.y1 ≤ (y : Int) ∧ (y : Int) < p.y2 ∧ p.x1 ≤ (x : Int) ∧ (x : Int) < p.x2 then
        resized.px ((y : Int) - p.y1).toNat ((x : Int) - p.x1).toNat c
      else canvas.px y x c }

/-- Left-pad the decimal representation of `n` with zeros to width `w`
(the behaviour of `strftime` numeric directives). -/
def padZeros (w n : Nat) : String :=
  String.mk (List.replicate (w - (toString n).length) '0') ++ toString n

/-- `exec_datetime.strftime("%Y%m%d")`. -/
def strfYmd (dt : DateTime) : String :=
  padZeros 4 dt.year ++ padZeros 2 dt.month ++ padZeros 2 dt.day

/-- `exec_datetime.strftime("%H%M")`. -/
def strfHM (dt : DateTime) : String :=
  padZeros 2 dt.hour ++ padZeros 2 dt.minute

/-- A written output artifact: destination path and pixel buffer. -/
structure OutputFile where
  name : String
  data : Img

/-- The renderer/writer `process_image` (`src/app_transform.py` lines
102-127): resizes `img_obj` to `proposed_res`, pastes it into the canvas
at `pip_coords` (mutating the stored canvas, which the returned dictionary
reflects), and writes the composite to
`os.path.join(output_dir, "{YYYYMMDD}_{HHMM}_{iter}.jpg")`.  Reading the
`canvas`/`pip_coords` keys fails (`none`) if they were never written,
as the corresponding python dict lookup would. -/
def process_image (s : ImgVars) (output_dir : String) (exec_datetime : DateTime)
    (iter : Nat) : Option (OutputFile × ImgVars) := do
  let resized := cvResize s.img_obj s.proposed_res.2 s.proposed_res.1
  let canvas ← s.canvas
  let p ← s.pip_coords
  let processed := pasteRegion canvas p resized
  let exec_date := strfYmd exec_datetime
  let exec_time := strfHM exec_datetime
  let file_dest := output_dir ++ "/" ++
    (exec_date ++ "_" ++ exec_time ++ "_" ++ toString iter ++ ".jpg")
  some ({ name := file_dest, data := processed },
    { s with canvas := some processed })

/-- One iteration of the `__main__` loop body on scratch state `s`:
planner, compositor, writer, at the program's configured constants. -/
def loopBody (s : ImgVars) (img : Img) (output_dir : String) (dt : DateTime)
    (i : Nat) : Option (OutputFile × ImgVars) :=
  process_image (add_pip_vars (resize_type s img ig_defined_res screen_factor scale_tolerance))
    output_dir dt i

/-- The `__main__` loop from iteration index `i` onward, threading the
scratch dictionary. -/
def runBatchAux (output_dir : String) (dt : DateTime) :
    ImgVars → List Img → Nat → Option (List OutputFile)
  | _, [], _ => some []
  | s, img :: rest, i => do
    let step ← loopBody s img output_dir dt i
    let outs ← runBatchAux output_dir dt step.2 rest (i + 1)
    some (step.1 :: outs)

/-- The whole `__main__` batch (lines 142-145): one pass per decoded input
image, in argument order, starting from scratch state `s0` (the initial
`defaultdict()` is any record with `canvas = none` and
`pip_coords = none`; no key is read before being written). -/
def runBatch (s0 : ImgVars) (output_dir : String) (dt : DateTime)
    (inputs : List Img) : Option (List OutputFile) :=
  runBatchAux output_dir dt s0 inputs 0

/-- The output file the batch produces for index `i`. -/
def batchOutput (s0 : ImgVars) (output_dir : String) (dt : DateTime)
    (inputs : List Img) (i : Nat) : Option OutputFile :=
  (runBatch s0 output_dir dt inputs).bind fun l => l[i]?

/-- A convenient initial scratch state standing for the module-level
`img_vars = defaultdict()`. -/
def initialVars : ImgVars :=
  { img_obj := { height := 1, width := 1, px := fun _ _ _ => 0 }
    img_res := (1, 1)
    img_aspect := 1
    defined_res := (1, 1)
    screen_factor := 1
    proposed_res := (1, 1)
    proposed_resize_dir := ""
    scale_tolerance := 0
    proposed_resize_factor := 0
    resize_validity := none
    canvas := none
    pip_coords := none }

/-- Digit value of an ASCII digit character. -/
def digitVal (c : Char) : Nat := c.toNat - 48

/-- Split a character list into its leading run of decimal digits
(as digit values) and the remainder. -/
def splitDigits : List Char → List Nat × List Char
  | [] => ([], [])
  | c :: cs =>
    if c.isDigit then
      let p := splitDigits cs
      (digitVal c :: p.1, p.2)
    else ([], c :: cs)

/-- Numeric value of a list of digit values (most significant first). -/
def digitsVal (ds : List Nat) : Nat := ds.foldl (fun a d => a * 10 + d) 0

/-- Gregorian leap-year rule used by `datetime`. -/
def isLeapYear (y : Nat) : Bool :=
  (y % 4 == 0 && y % 100 != 0) || y % 400 == 0

/-- Number of days in month `m` of year `y` (as validated by
`datetime.datetime`). -/
def daysInMonth (y m : Nat) : Nat :=
  if m = 2 then (if isLeapYear y then 29 else 28)
  else if m = 4 ∨ m = 6 ∨ m = 9 ∨ m = 11 then 30 else 31

/-- Parse one numeric field of `strptime`'s `%m`/`%d`/`%H`/`%M`: a run of
one or two digits (zero padding optional).  Longer runs fail because the
following literal separator cannot match a digit. -/
def parseField (cs : List Char) : Option (Nat × List Char) :=
  let p := splitDigits cs
  if p.1.length = 1 ∨ p.1.length = 2 then some (digitsVal p.1, p.2) else none

/-- The helper `valid_date` (`src/app_transform.py` lines 10-18):
`datetime.strptime(s, "%Y-%m-%d_%H-%M")`, returning `none` where the
python code raises `argparse.ArgumentTypeError`.  CPython's `strptime`
matches `%Y` against exactly four digits and `%m`/`%d`/`%H`/`%M` against
one or two digits with range constraints (zero padding optional), then
`datetime` construction additionally requires `MINYEAR ≤ year` and the day
to exist in the given month. -/
def valid_date (s : String) : Option DateTime :=
  let py := splitDigits s.data
  if py.1.length = 4 then
    match py.2 with
    | '-' :: r1 =>
      match parseField r1 with
      | some (mo, r2) =>
        match r2 with
        | '-' :: r3 =>
          match parseField r3 with
          | some (dy, r4) =>
            match r4 with
            | '_' :: r5 =>
              match parseField r5 with
              | some (hr, r6) =>
                match r6 with
                | '-' :: r7 =>
                  match parseField r7 with
                  | some (mi, r8) =>
                    if r8 = [] then
                      let y := digitsVal py.1
                      if 1 ≤ y ∧ 1 ≤ mo ∧ mo ≤ 12 ∧ 1 ≤ dy ∧
                          dy ≤ daysInMonth y mo ∧ hr ≤ 23 ∧ mi ≤ 59 then
                        some { year := y, month := mo, day := dy, hour := hr, minute := mi }
                      else none
                    else none
                  | none => none
                | _ => none
              | none => none
            | _ => none
          | none => none
        | _ => none
      | none => none
    | _ => none
  else none

/-- The literal fixed-width pattern `YYYY-MM-DD_HH-MM`: four digits,
dash, two digits, dash, two digits, underscore, two digits, dash, two
digits, and nothing else. -/
def matchesLiteralPattern (s : String) : Bool :=
  match s.data with
  | [a, b, c, d, s1, e, f, s2, g, h, s3, i, j, s4, k, l] =>
    a.isDigit && b.isDigit && c.isDigit && d.isDigit && s1 == '-' &&
    e.isDigit && f.isDigit && s2 == '-' && g.isDigit && h.isDigit &&
    s3 == '_' && i.isDigit && j.isDigit && s4 == '-' && k.isDigit && l.isDigit
  | _ => false

/-- Model of the argparse-driven `__main__` entry: a malformed
`execution_date` makes `argparse` print a usage error and exit with
status 2 before any image is processed; otherwise the parsed timestamp is
handed to the batch loop.  A `none` from the batch (an unreadable scratch
key, which never happens) is mapped to exit status 1. -/
def main_model (execution_date : String) (inputs : List Img)
    (output_dir : String) : Except Nat (List OutputFile) :=
  match valid_date execution_date with
  | none => Except.error 2
  | some dt =>
    match runBatch initialVars output_dir dt inputs with
    | some outs => Except.ok outs
    | none => Except.error 1

/-- `Rat.floor` agrees with the `FloorRing` floor on ℚ. -/
lemma ratFloor_eq_intFloor (q : ℚ) : Rat.floor q = ⌊q⌋ :=
  (Rat.floor_def' q).trans Rat.floor_def.symm

/-- Floor of `a / (w / h)` over ℚ is the natural division `a * h / w`. -/
lemma floor_div_div (a w h : ℕ) :
    (Rat.floor ((a : ℚ) / ((w : ℚ) / (h : ℚ)))).toNat = a * h / w := by
  rw [ratFloor_eq_intFloor, div_div_eq_mul_div,
    show ((a : ℚ) * (h : ℚ)) = (((a * h : ℕ) : ℤ) : ℚ) by push_cast; ring,
    Rat.floor_intCast_div_natCast, ← Int.natCast_div, Int.toNat_natCast]

/-- Floor of `a * (w / h)` over ℚ is the natural division `a * w / h`. -/
lemma floor_mul_div (a w h : ℕ) :
    (Rat.floor ((a : ℚ) * ((w : ℚ) / (h : ℚ)))).toNat = a * w / h := by
  rw [ratFloor_eq_intFloor, mul_div_assoc',
    show ((a : ℚ) * (w : ℚ)) = (((a * w : ℕ) : ℤ) : ℚ) by push_cast; ring,
    Rat.floor_intCast_div_natCast, ← Int.natCast_div, Int.toNat_natCast]

/-- Floor of a quotient of naturals over ℚ is their natural division. -/
lemma floor_nat_div (a w : ℕ) :
    (Rat.floor ((a : ℚ) / (w : ℚ))).toNat = a / w := by
  rw [ratFloor_eq_intFloor,
    show ((a : ℚ)) = (((a : ℕ) : ℤ) : ℚ) by push_cast; ring,
    Rat.floor_intCast_div_natCast, ← Int.natCast_div, Int.toNat_natCast]

/-- Floor of `(3/4) * n` over ℚ is `3 * n / 4`. -/
lemma floor_factor_mul (n : ℕ) :
    (Rat.floor (screen_factor * (n : ℚ))).toNat = 3 * n / 4 := by
  rw [ratFloor_eq_intFloor, screen_factor,
    show ((3 : ℚ)/4 * (n : ℚ)) = (((3 * n : ℕ) : ℤ) : ℚ) / ((4 : ℕ) : ℚ) by push_cast; ring,
    Rat.floor_intCast_div_natCast, ← Int.natCast_div, Int.toNat_natCast]

/-- The planner's proposed `(height, width)` at the configured constants,
re-expressed with exact natural division (`3 * 1080 / 4 = 810` and
`3 * 1920 / 4 = 1440`). -/
def plan_res (img : Img) : Nat × Nat :=
  if 810 * img.height / img.width ≤ 1920 then
    (810 * img.height / img.width, 810)
  else (1440, 1440 * img.width / img.height)

/-- The planner's resize direction at the configured constants. -/
def plan_dir (img : Img) : String :=
  if (plan_res img).2 ≤ img.width then "shrink" else "scale"

/-- The planner's `proposed_resize_factor` at the configured constants. -/
def plan_factor (img : Img) : Nat := (plan_res img).2 / img.width

/-- The planner's `resize_validity` at the configured constants. -/
def plan_validity (img : Img) : Option Bool :=
  if plan_dir img = "scale" then some (decide (plan_factor img ≤ 2)) else none

/-- Evaluation of `resize_type` at the program's constants: every field of
the returned dictionary in closed natural-number form.  The `canvas` and
`pip_coords` keys are untouched. -/
theorem resize_type_eval (prev : ImgVars) (img : Img) :
    resize_type prev img ig_defined_res screen_factor scale_tolerance =
    { img_obj := img
      img_res := (img.height, img.width)
      img_aspect := (img.width : ℚ) / (img.height : ℚ)
      defined_res := (1920, 1080)
      screen_factor := 3/4
      proposed_res := plan_res img
      proposed_resize_dir := plan_dir img
      scale_tolerance := 2
      proposed_resize_factor := plan_factor img
      resize_validity := plan_validity img
      canvas := prev.canvas
      pip_coords := prev.pip_coords } := by
  have hpw : (Rat.floor (screen_factor * ((ig_defined_res.2 : ℕ) : ℚ))).toNat = 810 :=
    floor_factor_mul 1080
  have hph : (Rat.floor (screen_factor * ((ig_defined_res.1 : ℕ) : ℚ))).toNat = 1440 :=
    floor_factor_mul 1920
  simp only [resize_type, ig_defined_res] at *
  rw [hpw, hph, floor_div_div, floor_mul_div]
  have hres : (if 810 * img.height / img.width ≤ 1920 then
      (810 * img.height / img.width, 810)
      else (1440, 1440 * img.width / img.height)) = plan_res img := by
    rw [plan_res]
  rw [hres]
  have hdir : (if (plan_res img).2 ≤ img.width then "shrink" else "scale") = plan_dir img := by
    rw [plan_dir]
  rw [hdir, floor_nat_div]
  have hfac : (plan_res img).2 / img.width = plan_factor img := by rw [plan_factor]
  rw [hfac]
  have hval : (if plan_dir img = "scale" then some (decide (plan_factor img ≤ scale_tolerance))
      else if plan_dir img = "shrink" then none else prev.resize_validity) =
      plan_validity img := by
    rw [plan_validity, plan_dir, scale_tolerance]
    by_cases hc : (plan_res img).2 ≤ img.width
    · simp [hc]
    · simp [hc]
  rw [hval]
  rfl

/-- With the configured constants the proposed height never exceeds 1920
and the proposed width never exceeds 1080. -/
lemma plan_res_le (img : Img) :
    (plan_res img).1 ≤ 1920 ∧ (plan_res img).2 ≤ 1080 := by
  rw [plan_res]
  by_cases hc : 810 * img.height / img.width ≤ 1920
  · simp only [if_pos hc]
    exact ⟨hc, by omega⟩
  · simp only [if_neg hc]
    refine ⟨by omega, ?_⟩
    have hw : 0 < img.width := by
      rcases Nat.eq_zero_or_pos img.width with h0 | h0
      · exact absurd (by simp [h0]) hc
      · exact h0
    have h1 : 1921 * img.width ≤ 810 * img.height :=
      (Nat.le_div_iff_mul_le hw).1 (by omega)
    have h2 : 1440 * img.width ≤ 1080 * img.height := by omega
    exact Nat.div_le_of_le_mul (by omega)

/-- `halfTrunc` on a natural number is plain halving. -/
lemma halfTrunc_natCast (n : ℕ) : halfTrunc (n : ℤ) = ((n / 2 : ℕ) : ℤ) := by
  cases n with
  | zero => rfl
  | succ m =>
    rw [halfTrunc, Int.sign_eq_one_of_pos (by exact_mod_cast Nat.succ_pos m), one_mul,
      Int.natAbs_ofNat]
    omega

/-- The two state-mutating stages overwrite everything they hand to the
writer, so (at the configured constants) the scratch state they start from
is irrelevant. -/
lemma stages_ignore_prev (s t : ImgVars) (img : Img) :
    add_pip_vars (resize_type s img ig_defined_res screen_factor scale_tolerance) =
    add_pip_vars (resize_type t img ig_defined_res screen_factor scale_tolerance) := by
  rw [resize_type_eval, resize_type_eval]
  rfl

/-- One loop iteration started from the canonical initial state. -/
def pipelineStep (img : Img) (output_dir : String) (dt : DateTime) (i : Nat) :
    Option (OutputFile × ImgVars) :=
  loopBody initialVars img output_dir dt i

/-- The loop body computes the same result from any scratch state. -/
lemma loopBody_eq_pipelineStep (s : ImgVars) (img : Img) (output_dir : String)
    (dt : DateTime) (i : Nat) :
    loopBody s img output_dir dt i = pipelineStep img output_dir dt i := by
  rw [pipelineStep, loopBody, loopBody, stages_ignore_prev s initialVars img]

/-- The file the pipeline writes for input `img` at batch index `i`. -/
def pipelineOut (img : Img) (output_dir : String) (dt : DateTime) (i : Nat) :
    OutputFile :=
  (((pipelineStep img output_dir dt i).map Prod.fst).getD
    { name := "", data := img })

/-- The scratch state left behind by the iteration. -/
def pipelineNext (img : Img) (output_dir : String) (dt : DateTime) (i : Nat) :
    ImgVars :=
  (((pipelineStep img output_dir dt i).map Prod.snd).getD initialVars)

/-- The writer always succeeds: the compositor unconditionally wrote the
`canvas` and `pip_coords` keys beforehand. -/
lemma pipelineStep_eq (img : Img) (output_dir : String) (dt : DateTime) (i : Nat) :
    pipelineStep img output_dir dt i =
    some (pipelineOut img output_dir dt i, pipelineNext img output_dir dt i) := rfl

/-- The outputs of the batch loop from index `i` on. -/
def batchOutputsFrom (output_dir : String) (dt : DateTime) :
    List Img → Nat → List OutputFile
  | [], _ => []
  | img :: rest, i =>
    pipelineOut img output_dir dt i :: batchOutputsFrom output_dir dt rest (i + 1)

/-- The batch loop never fails and produces exactly one output per input,
each determined by that input, the timestamp and its index alone. -/
lemma runBatchAux_eq (output_dir : String) (dt : DateTime) :
    ∀ (inputs : List Img) (s : ImgVars) (i : Nat),
      runBatchAux output_dir dt s inputs i =
      some (batchOutputsFrom output_dir dt inputs i) := by
  intro inputs
  induction inputs with
  | nil => intro s i; rfl
  | cons img rest ih =>
    intro s i
    rw [runBatchAux, loopBody_eq_pipelineStep, pipelineStep_eq]
    simp only [Option.bind_eq_bind, Option.some_bind]
    rw [ih]
    rfl

/-- Index `j` of the outputs-from-`i` list. -/
lemma batchOutputsFrom_get (output_dir : String) (dt : DateTime) :
    ∀ (inputs : List Img) (i j : Nat),
      (batchOutputsFrom output_dir dt inputs i)[j]? =
      (inputs[j]?).map fun img => pipelineOut img output_dir dt (i + j) := by
  intro inputs
  induction inputs with
  | nil => intro i j; simp [batchOutputsFrom]
  | cons img rest ih =>
    intro i j
    cases j with
    | zero => simp [batchOutputsFrom]
    | succ k =>
      simp only [batchOutputsFrom, List.getElem?_cons_succ, ih (i + 1) k]
      have : i + 1 + k = i + (k + 1) := by omega
      rw [this]

/-- The output at batch index `i` is a function of the `i`-th input, the
batch timestamp and `i` alone. -/
lemma batchOutput_eq (s0 : ImgVars) (output_dir : String) (dt : DateTime)
    (inputs : List Img) (i : Nat) :
    batchOutput s0 output_dir dt inputs i =
    (inputs[i]?).map fun img => pipelineOut img output_dir dt i := by
  rw [batchOutput, runBatch, runBatchAux_eq]
  simp only [Option.some_bind]
  rw [batchOutputsFrom_get]
  simp

/-- Integer floor of half a natural number. -/
lemma int_floor_nat_half (m : ℕ) : ⌊((m : ℚ)) / 2⌋ = ((m / 2 : ℕ) : ℤ) := by
  rw [show ((m : ℚ)) = (((m : ℕ) : ℤ) : ℚ) by push_cast; ring,
    show ((2 : ℚ)) = (((2 : ℕ)) : ℚ) by push_cast; ring,
    Rat.floor_intCast_div_natCast]
  exact (Int.natCast_div m 2).symm

/-- The destination path of every written file. -/
lemma pipelineOut_name (img : Img) (output_dir : String) (dt : DateTime) (i : Nat) :
    (pipelineOut img output_dir dt i).name =
    output_dir ++ "/" ++ (strfYmd dt ++ "_" ++ strfHM dt ++ "_" ++ toString i ++ ".jpg") := rfl

/-- Every written buffer is 1920 pixels high. -/
lemma pipelineOut_height (img : Img) (output_dir : String) (dt : DateTime) (i : Nat) :
    (pipelineOut img output_dir dt i).data.height = 1920 := rfl

/-- Every written buffer is 1080 pixels wide. -/
lemma pipelineOut_width (img : Img) (output_dir : String) (dt : DateTime) (i : Nat) :
    (pipelineOut img output_dir dt i).data.width = 1080 := rfl

/-- A portrait image whose dimensions equal the configured canvas. -/
def img_1920x1080 : Img := { height := 1920, width := 1080, px := fun _ _ _ => 0 }

/-- A square 500 x 500 image. -/
def img_500 : Img := { height := 500, width := 500, px := fun _ _ _ => 0 }

/-- A one-pixel image (forces an out-of-tolerance enlargement). -/
def img_1x1 : Img := { height := 1, width := 1, px := fun _ _ _ => 0 }

/-- The batch timestamp 2024-03-01 09:30. -/
def dt_example : DateTime := { year := 2024, month := 3, day := 1, hour := 9, minute := 30 }

/-- C1.  The claim's concrete scenario is stated in the transposed
(landscape) orientation.  The program's configured constant is
`(1920, 1080)` in height x width order, so the canvas is 1920 high and
1080 wide and the claim's "natural dimensions 1080 by 1920 matching the
canvas aspect ratio" is the portrait image with height 1920 and width
1080.  The planner then proposes width 810 (not 1440) and height 1440
(not 810), and the compositor's top offset is 240 (not 135) and left
offset is 135 (not 240), refuting the claimed conjunction. -/
theorem C1_counterexample :
    (resize_type initialVars img_1920x1080 ig_defined_res screen_factor scale_tolerance).proposed_res = (1440, 810) ∧
    (add_pip_vars (resize_type initialVars img_1920x1080 ig_defined_res screen_factor scale_tolerance)).pip_coords =
      some { x1 := 135, x2 := 945, y1 := 240, y2 := 1680 } ∧
    ¬ ((resize_type initialVars img_1920x1080 ig_defined_res screen_factor scale_tolerance).proposed_res.2 = 1440 ∧
       (resize_type initialVars img_1920x1080 ig_defined_res screen_factor scale_tolerance).proposed_res.1 = 810 ∧
       (resize_type initialVars img_1920x1080 ig_defined_res screen_factor scale_tolerance).proposed_resize_dir = "shrink" ∧
       Option.map PipCoords.y1
         (add_pip_vars (resize_type initialVars img_1920x1080 ig_defined_res screen_factor scale_tolerance)).pip_coords = some 135 ∧
       Option.map PipCoords.x1
         (add_pip_vars (resize_type initialVars img_1920x1080 ig_defined_res screen_factor scale_tolerance)).pip_coords = some 240) := by
  rw [resize_type_eval]
  decide

/-- C1 (amended).  With the configured height x width constants, the
portrait input whose natural dimensions are 1920 x 1080 (height x width,
already matching the canvas aspect ratio) yields proposed height 1440 and
proposed width 810, resize direction "shrink", and centering offsets
top = (1920-1440)/2 = 240 and left = (1080-810)/2 = 135. -/
theorem C1_amended_eval :
    (resize_type initialVars img_1920x1080 ig_defined_res screen_factor scale_tolerance).proposed_res = (1440, 810) ∧
    (resize_type initialVars img_1920x1080 ig_defined_res screen_factor scale_tolerance).proposed_resize_dir = "shrink" ∧
    (add_pip_vars (resize_type initialVars img_1920x1080 ig_defined_res screen_factor scale_tolerance)).pip_coords =
      some { x1 := 135, x2 := 945, y1 := 240, y2 := 1680 } := by
  rw [resize_type_eval]
  decide

/-- The candidate-A / fallback proposal exactly as the spec words it
(returned as `(proposed_width, proposed_height)`): with
r = natural_width / natural_height, candidate A is
proposed_width = floor(factor x target_width),
proposed_height = floor(proposed_width / r); it is kept when that height
is at most target_height, and otherwise
proposed_height = floor(factor x target_height),
proposed_width = floor(proposed_height x r).  The configured target is
`ig_defined_res` in height x width order, so target_width is
`ig_defined_res.2` and target_height is `ig_defined_res.1`. -/
def claimed_proposal (img : Img) : Nat × Nat :=
  let r : ℚ := (img.width : ℚ) / (img.height : ℚ)
  let wA : Nat := (Rat.floor (screen_factor * (ig_defined_res.2 : ℚ))).toNat
  let hA : Nat := (Rat.floor ((wA : ℚ) / r)).toNat
  if hA ≤ ig_defined_res.1 then (wA, hA)
  else
    let hB : Nat := (Rat.floor (screen_factor * (ig_defined_res.1 : ℚ))).toNat
    ((Rat.floor ((hB : ℚ) * r)).toNat, hB)

/-- C2.  For every decodable input image, the planner's proposed width and
height are exactly the spec's candidate-A / recompute-from-height rule
(`claimed_proposal`, stated verbatim from the claim). -/
theorem C2_planner_follows_candidate_rule (s : ImgVars) (img : Img)
    (hh : 0 < img.height) (hw : 0 < img.width) :
    (resize_type s img ig_defined_res screen_factor scale_tolerance).proposed_res.2 =
      (claimed_proposal img).1 ∧
    (resize_type s img ig_defined_res screen_factor scale_tolerance).proposed_res.1 =
      (claimed_proposal img).2 := by
  rw [resize_type_eval]
  simp only [claimed_proposal, ig_defined_res]
  rw [floor_factor_mul, floor_factor_mul, floor_div_div, floor_mul_div]
  norm_num
  rw [plan_res]
  constructor <;> split <;> rfl

/-- C2 witness: the rule evaluated at the concrete 500 x 500 image. -/
theorem C2_witness :
    0 < img_500.height ∧ 0 < img_500.width ∧
    ((resize_type initialVars img_500 ig_defined_res screen_factor scale_tolerance).proposed_res.2 =
      (claimed_proposal img_500).1 ∧
    (resize_type initialVars img_500 ig_defined_res screen_factor scale_tolerance).proposed_res.1 =
      (claimed_proposal img_500).2) :=
  ⟨by decide, by decide,
    C2_planner_follows_candidate_rule initialVars img_500 (by decide) (by decide)⟩

/-- Projection of `resize_type_eval`: the proposed resolution. -/
lemma resize_proposed_eq (s : ImgVars) (img : Img) :
    (resize_type s img ig_defined_res screen_factor scale_tolerance).proposed_res =
    plan_res img := by
  rw [resize_type_eval]

/-- Projection of `resize_type_eval`: the resize direction. -/
lemma resize_dir_eq (s : ImgVars) (img : Img) :
    (resize_type s img ig_defined_res screen_factor scale_tolerance).proposed_resize_dir =
    plan_dir img := by
  rw [resize_type_eval]

/-- Projection of `resize_type_eval`: the resize factor. -/
lemma resize_factor_eq (s : ImgVars) (img : Img) :
    (resize_type s img ig_defined_res screen_factor scale_tolerance).proposed_resize_factor =
    plan_factor img := by
  rw [resize_type_eval]

/-- Projection of `resize_type_eval`: the validity flag. -/
lemma resize_validity_eq (s : ImgVars) (img : Img) :
    (resize_type s img ig_defined_res screen_factor scale_tolerance).resize_validity =
    plan_validity img := by
  rw [resize_type_eval]

/-- C3.  For every decodable input, `proposed_resize_factor` is the
truncated ratio floor(proposed_width / natural_width); when the proposed
width exceeds the natural width (the "enlarge"/`'scale'` direction) the
validity flag is true iff that factor is at most the tolerance 2, and when
the proposed width is at most the natural width (`'shrink'`) the flag is
`None`. -/
theorem C3_factor_and_validity (s : ImgVars) (img : Img)
    (hh : 0 < img.height) (hw : 0 < img.width) :
    (resize_type s img ig_defined_res screen_factor scale_tolerance).proposed_resize_factor =
      (Rat.floor (((resize_type s img ig_defined_res screen_factor scale_tolerance).proposed_res.2 : ℚ) /
        (img.width : ℚ))).toNat ∧
    (img.width < (resize_type s img ig_defined_res screen_factor scale_tolerance).proposed_res.2 →
      (resize_type s img ig_defined_res screen_factor scale_tolerance).resize_validity =
        some (decide ((resize_type s img ig_defined_res screen_factor scale_tolerance).proposed_resize_factor ≤ 2))) ∧
    ((resize_type s img ig_defined_res screen_factor scale_tolerance).proposed_res.2 ≤ img.width →
      (resize_type s img ig_defined_res screen_factor scale_tolerance).resize_validity = none) := by
  rw [resize_proposed_eq, resize_factor_eq, resize_validity_eq]
  refine ⟨?_, ?_, ?_⟩
  · rw [floor_nat_div, plan_factor]
  · intro hlt
    rw [plan_validity, plan_dir,
      if_neg (show ¬ (plan_res img).2 ≤ img.width by omega), if_pos rfl]
  · intro hle
    rw [plan_validity, plan_dir, if_pos hle,
      if_neg (show ¬ ("shrink" : String) = "scale" by decide)]

/-- C3 witness: the square 500 x 500 image is enlarged with factor
floor(810/500) = 1 and flagged valid. -/
theorem C3_witness :
    0 < img_500.height ∧ 0 < img_500.width ∧
    ((resize_type initialVars img_500 ig_defined_res screen_factor scale_tolerance).proposed_resize_factor =
      (Rat.floor (((resize_type initialVars img_500 ig_defined_res screen_factor scale_tolerance).proposed_res.2 : ℚ) /
        (img_500.width : ℚ))).toNat ∧
    (img_500.width < (resize_type initialVars img_500 ig_defined_res screen_factor scale_tolerance).proposed_res.2 →
      (resize_type initialVars img_500 ig_defined_res screen_factor scale_tolerance).resize_validity =
        some (decide ((resize_type initialVars img_500 ig_defined_res screen_factor scale_tolerance).proposed_resize_factor ≤ 2))) ∧
    ((resize_type initialVars img_500 ig_defined_res screen_factor scale_tolerance).proposed_res.2 ≤ img_500.width →
      (resize_type initialVars img_500 ig_defined_res screen_factor scale_tolerance).resize_validity = none)) :=
  ⟨by decide, by decide,
    C3_factor_and_validity initialVars img_500 (by decide) (by decide)⟩

/-- The placement rectangle the compositor stores, in closed form. -/
lemma add_pip_coords (s : ImgVars) (img : Img) :
    (add_pip_vars (resize_type s img ig_defined_res screen_factor scale_tolerance)).pip_coords =
    some { x1 := halfTrunc ((1080 : ℤ) - ((plan_res img).2 : ℤ))
           x2 := halfTrunc ((1080 : ℤ) - ((plan_res img).2 : ℤ)) + ((plan_res img).2 : ℤ)
           y1 := halfTrunc ((1920 : ℤ) - ((plan_res img).1 : ℤ))
           y2 := halfTrunc ((1920 : ℤ) - ((plan_res img).1 : ℤ)) + ((plan_res img).1 : ℤ) } := by
  rw [resize_type_eval]
  rfl

/-- The compositor leaves the planner's proposed resolution unchanged. -/
lemma add_pip_proposed (s : ImgVars) (img : Img) :
    (add_pip_vars (resize_type s img ig_defined_res screen_factor scale_tolerance)).proposed_res =
    plan_res img := by
  rw [resize_type_eval]
  rfl

/-- C5.  For every decodable input, the placement rectangle is the
centered one: top = floor((target_height - proposed_height)/2),
left = floor((target_width - proposed_width)/2), bottom = top +
proposed_height, right = left + proposed_width (canvas 1920 high,
1080 wide). -/
theorem C5_placement_rectangle (s : ImgVars) (img : Img)
    (hh : 0 < img.height) (hw : 0 < img.width) :
    ∃ p, (add_pip_vars (resize_type s img ig_defined_res screen_factor scale_tolerance)).pip_coords = some p ∧
      p.y1 = ⌊((1920 : ℚ) - ((resize_type s img ig_defined_res screen_factor scale_tolerance).proposed_res.1 : ℚ)) / 2⌋ ∧
      p.x1 = ⌊((1080 : ℚ) - ((resize_type s img ig_defined_res screen_factor scale_tolerance).proposed_res.2 : ℚ)) / 2⌋ ∧
      p.y2 = p.y1 + ((resize_type s img ig_defined_res screen_factor scale_tolerance).proposed_res.1 : ℤ) ∧
      p.x2 = p.x1 + ((resize_type s img ig_defined_res screen_factor scale_tolerance).proposed_res.2 : ℤ) := by
  rw [add_pip_coords, resize_proposed_eq]
  have h1 : (plan_res img).1 ≤ 1920 := (plan_res_le img).1
  have h2 : (plan_res img).2 ≤ 1080 := (plan_res_le img).2
  refine ⟨_, rfl, ?_, ?_, rfl, rfl⟩
  · rw [show ((1920 : ℤ) - ((plan_res img).1 : ℤ)) = ((1920 - (plan_res img).1 : ℕ) : ℤ) by omega,
      halfTrunc_natCast,
      show ((1920 : ℚ) - ((plan_res img).1 : ℚ)) = ((1920 - (plan_res img).1 : ℕ) : ℚ) by
        push_cast [h1]; ring,
      int_floor_nat_half]
  · rw [show ((1080 : ℤ) - ((plan_res img).2 : ℤ)) = ((1080 - (plan_res img).2 : ℕ) : ℤ) by omega,
      halfTrunc_natCast,
      show ((1080 : ℚ) - ((plan_res img).2 : ℚ)) = ((1080 - (plan_res img).2 : ℕ) : ℚ) by
        push_cast [h2]; ring,
      int_floor_nat_half]

/-- C5 witness: the rectangle of the 500 x 500 image. -/
theorem C5_witness :
    0 < img_500.height ∧ 0 < img_500.width ∧
    ∃ p, (add_pip_vars (resize_type initialVars img_500 ig_defined_res screen_factor scale_tolerance)).pip_coords = some p ∧
      p.y1 = ⌊((1920 : ℚ) - ((resize_type initialVars img_500 ig_defined_res screen_factor scale_tolerance).proposed_res.1 : ℚ)) / 2⌋ ∧
      p.x1 = ⌊((1080 : ℚ) - ((resize_type initialVars img_500 ig_defined_res screen_factor scale_tolerance).proposed_res.2 : ℚ)) / 2⌋ ∧
      p.y2 = p.y1 + ((resize_type initialVars img_500 ig_defined_res screen_factor scale_tolerance).proposed_res.1 : ℤ) ∧
      p.x2 = p.x1 + ((resize_type initialVars img_500 ig_defined_res screen_factor scale_tolerance).proposed_res.2 : ℤ) :=
  ⟨by decide, by decide,
    C5_placement_rectangle initialVars img_500 (by decide) (by decide)⟩

/-- C9.  With the configured factor 0.75 both proposed dimensions stay
within the canvas (height at most 1920, width at most 1080), so the
centering offsets are nonnegative and the paste rectangle lies fully
inside the canvas: the negative-offset enlarge-beyond-canvas case is
unreachable. -/
theorem C9_offsets_nonnegative (s : ImgVars) (img : Img)
    (hh : 0 < img.height) (hw : 0 < img.width) :
    (resize_type s img ig_defined_res screen_factor scale_tolerance).proposed_res.1 ≤ 1920 ∧
    (resize_type s img ig_defined_res screen_factor scale_tolerance).proposed_res.2 ≤ 1080 ∧
    ∃ p, (add_pip_vars (resize_type s img ig_defined_res screen_factor scale_tolerance)).pip_coords = some p ∧
      0 ≤ p.y1 ∧ 0 ≤ p.x1 ∧ p.y2 ≤ 1920 ∧ p.x2 ≤ 1080 := by
  rw [resize_proposed_eq, add_pip_coords]
  have h1 : (plan_res img).1 ≤ 1920 := (plan_res_le img).1
  have h2 : (plan_res img).2 ≤ 1080 := (plan_res_le img).2
  rw [show ((1920 : ℤ) - ((plan_res img).1 : ℤ)) = ((1920 - (plan_res img).1 : ℕ) : ℤ) by omega,
    show ((1080 : ℤ) - ((plan_res img).2 : ℤ)) = ((1080 - (plan_res img).2 : ℕ) : ℤ) by omega,
    halfTrunc_natCast, halfTrunc_natCast]
  refine ⟨h1, h2, _, rfl, ?_, ?_, ?_, ?_⟩
  · show (0 : ℤ) ≤ (((1920 - (plan_res img).1) / 2 : ℕ) : ℤ)
    omega
  · show (0 : ℤ) ≤ (((1080 - (plan_res img).2) / 2 : ℕ) : ℤ)
    omega
  · show (((1920 - (plan_res img).1) / 2 : ℕ) : ℤ) + ((plan_res img).1 : ℤ) ≤ 1920
    omega
  · show (((1080 - (plan_res img).2) / 2 : ℕ) : ℤ) + ((plan_res img).2 : ℤ) ≤ 1080
    omega

/-- C9 witness: the one-pixel image (largest possible enlargement). -/
theorem C9_witness :
    0 < img_1x1.height ∧ 0 < img_1x1.width ∧
    ((resize_type initialVars img_1x1 ig_defined_res screen_factor scale_tolerance).proposed_res.1 ≤ 1920 ∧
    (resize_type initialVars img_1x1 ig_defined_res screen_factor scale_tolerance).proposed_res.2 ≤ 1080 ∧
    ∃ p, (add_pip_vars (resize_type initialVars img_1x1 ig_defined_res screen_factor scale_tolerance)).pip_coords = some p ∧
      0 ≤ p.y1 ∧ 0 ≤ p.x1 ∧ p.y2 ≤ 1920 ∧ p.x2 ≤ 1080) :=
  ⟨by decide, by decide,
    C9_offsets_nonnegative initialVars img_1x1 (by decide) (by decide)⟩

/-- C4.  An input flagged invalid (validity `some false`) raises no error
and stops nothing: the writer still runs, produces a written file, and the
file is byte-identical to what a valid flag would have produced — the
writer never consults `resize_validity`. -/
theorem C4_invalid_still_written (s : ImgVars) (img : Img) (output_dir : String)
    (dt : DateTime) (i : Nat) (hh : 0 < img.height) (hw : 0 < img.width)
    (hinv : (resize_type s img ig_defined_res screen_factor scale_tolerance).resize_validity = some false) :
    ∃ o s1 s2,
      process_image (add_pip_vars (resize_type s img ig_defined_res screen_factor scale_tolerance))
        output_dir dt i = some (o, s1) ∧
      process_image { add_pip_vars (resize_type s img ig_defined_res screen_factor scale_tolerance) with
        resize_validity := some true } output_dir dt i = some (o, s2) :=
  ⟨_, _, _, rfl, rfl⟩

/-- C4 witness: the one-pixel image is an out-of-tolerance enlargement
(factor 810 > 2, validity `some false`) and is still written. -/
theorem C4_witness :
    0 < img_1x1.height ∧ 0 < img_1x1.width ∧
    (resize_type initialVars img_1x1 ig_defined_res screen_factor scale_tolerance).resize_validity = some false ∧
    ∃ o s1 s2,
      process_image (add_pip_vars (resize_type initialVars img_1x1 ig_defined_res screen_factor scale_tolerance))
        "out" dt_example 0 = some (o, s1) ∧
      process_image { add_pip_vars (resize_type initialVars img_1x1 ig_defined_res screen_factor scale_tolerance) with
        resize_validity := some true } "out" dt_example 0 = some (o, s2) :=
  ⟨by decide, by decide, by rw [resize_validity_eq]; decide,
    C4_invalid_still_written initialVars img_1x1 "out" dt_example 0 (by decide) (by decide)
      (by rw [resize_validity_eq]; decide)⟩

/-- C6.  In a batch with one shared caller-supplied timestamp, the file
written for the i-th input (zero-based, argument order) is
`{output_dir}/{YYYYMMDD}_{HHMM}_{i}.jpg` with both timestamp fields taken
from that shared timestamp. -/
theorem C6_filename_contract (s0 : ImgVars) (dt : DateTime) (output_dir : String)
    (inputs : List Img) (i : Nat)
    (hdec : ∀ img ∈ inputs, 0 < img.height ∧ 0 < img.width)
    (hi : i < inputs.length) :
    ∃ o, batchOutput s0 output_dir dt inputs i = some o ∧
      o.name = output_dir ++ "/" ++
        (strfYmd dt ++ "_" ++ strfHM dt ++ "_" ++ toString i ++ ".jpg") := by
  rw [batchOutput_eq]
  simp only [List.getElem?_eq_getElem hi, Option.map_some']
  exact ⟨_, rfl, pipelineOut_name _ _ _ _⟩

/-- C6 witness: timestamp 2024-03-01 09:30 with three inputs names the
third file `20240301_0930_2.jpg`. -/
theorem C6_witness :
    ∃ o, batchOutput initialVars "out" dt_example [img_500, img_500, img_500] 2 = some o ∧
      o.name = "out/20240301_0930_2.jpg" := by
  obtain ⟨o, h1, h2⟩ := C6_filename_contract initialVars dt_example "out"
    [img_500, img_500, img_500] 2 (by decide) (by decide)
  exact ⟨o, h1, by rw [h2]; rfl⟩

/-- C7.  Whatever the input's natural size, the written pixel buffer has
exactly the configured canvas dimensions: 1920 high, 1080 wide (and three
channels, which the `Img` pixel type carries structurally). -/
theorem C7_output_is_canvas_sized (s0 : ImgVars) (dt : DateTime) (output_dir : String)
    (inputs : List Img) (i : Nat)
    (hdec : ∀ img ∈ inputs, 0 < img.height ∧ 0 < img.width)
    (hi : i < inputs.length) :
    ∃ o, batchOutput s0 output_dir dt inputs i = some o ∧
      o.data.height = 1920 ∧ o.data.width = 1080 := by
  rw [batchOutput_eq]
  simp only [List.getElem?_eq_getElem hi, Option.map_some']
  exact ⟨_, rfl, pipelineOut_height _ _ _ _, pipelineOut_width _ _ _ _⟩

/-- C7 witness: a tiny input still yields a 1920 x 1080 output buffer. -/
theorem C7_witness :
    ∃ o, batchOutput initialVars "out" dt_example [img_1x1] 0 = some o ∧
      o.data.height = 1920 ∧ o.data.width = 1080 :=
  C7_output_is_canvas_sized initialVars dt_example "out" [img_1x1] 0
    (by decide) (by decide)

/-- C10.  Although the stages share one mutable scratch record across
iterations, every key the writer consumes is overwritten each iteration,
so the i-th output depends only on the i-th input image, the shared batch
timestamp and the index: two runs (from any scratch states) whose i-th
inputs agree produce identical i-th outputs regardless of the other
inputs. -/
theorem C10_no_cross_file_leakage (s0 s0' : ImgVars) (output_dir : String)
    (dt : DateTime) (inputs inputs' : List Img) (i : Nat)
    (hdec : ∀ img ∈ inputs, 0 < img.height ∧ 0 < img.width)
    (hdec' : ∀ img ∈ inputs', 0 < img.height ∧ 0 < img.width)
    (heq : inputs[i]? = inputs'[i]?) :
    batchOutput s0 output_dir dt inputs i = batchOutput s0' output_dir dt inputs' i := by
  rw [batchOutput_eq, batchOutput_eq, heq]

/-- C10 witness: two batches differing in their first input produce the
same second output. -/
theorem C10_witness :
    batchOutput initialVars "out" dt_example [img_500, img_1x1] 1 =
    batchOutput initialVars "out" dt_example [img_1920x1080, img_1x1] 1 :=
  C10_no_cross_file_leakage initialVars initialVars "out" dt_example
    [img_500, img_1x1] [img_1920x1080, img_1x1] 1 (by decide) (by decide) rfl

/-- C8 counterexample.  The literal fixed-width pattern is neither
necessary nor sufficient for successful parsing: `strptime` accepts the
unpadded string `2024-3-1_9-5` (which does not match `YYYY-MM-DD_HH-MM`),
while `2024-02-30_10-00` matches the literal pattern yet is rejected
(February 30 does not exist). -/
theorem C8_counterexample :
    (matchesLiteralPattern "2024-3-1_9-5" = false ∧
      valid_date "2024-3-1_9-5" =
        some { year := 2024, month := 3, day := 1, hour := 9, minute := 5 }) ∧
    (matchesLiteralPattern "2024-02-30_10-00" = true ∧
      valid_date "2024-02-30_10-00" = none) := by
  decide

/-- C8 (amended).  For every `execution_date` string rejected by
`strptime("%Y-%m-%d_%H-%M")` — four-digit year at least 1, month, day,
hour and minute of one or two digits with zero padding optional, month
1-12, day existing in that month, hour at most 23, minute at most 59 —
argument parsing fails and the process exits with a non-zero status
(argparse status 2) before any image is processed; for every accepted
string parsing succeeds and the parsed value is the batch timestamp the
writer uses for every output of the run. -/
theorem C8_date_parsing (s : String) (inputs : List Img) (output_dir : String) :
    (valid_date s = none → main_model s inputs output_dir = Except.error 2) ∧
    (∀ dt, valid_date s = some dt →
      main_model s inputs output_dir =
        Except.ok (batchOutputsFrom output_dir dt inputs 0)) := by
  constructor
  · intro h
    rw [main_model, h]
  · intro dt h
    have hm : main_model s inputs output_dir =
        match runBatch initialVars output_dir dt inputs with
        | some outs => Except.ok outs
        | none => Except.error 1 := by
      rw [main_model, h]
    rw [hm,
      show runBatch initialVars output_dir dt inputs =
        some (batchOutputsFrom output_dir dt inputs 0) from
        runBatchAux_eq output_dir dt inputs initialVars 0]

/-- C8 witness: a malformed date exits with status 2; the lenient
`2024-3-1_9-5` is accepted and drives the whole batch. -/
theorem C8_witness :
    (valid_date "2024-13-01_09-30" = none ∧
      main_model "2024-13-01_09-30" [img_500] "out" = Except.error 2) ∧
    (valid_date "2024-3-1_9-5" =
        some { year := 2024, month := 3, day := 1, hour := 9, minute := 5 } ∧
      main_model "2024-3-1_9-5" [img_500] "out" =
        Except.ok (batchOutputsFrom "out"
          { year := 2024, month := 3, day := 1, hour := 9, minute := 5 } [img_500] 0)) :=
  ⟨⟨by decide, (C8_date_parsing "2024-13-01_09-30" [img_500] "out").1 (by decide)⟩,
    ⟨by decide, (C8_date_parsing "2024-3-1_9-5" [img_500] "out").2
      { year := 2024, month := 3, day := 1, hour := 9, minute := 5 } (by decide)⟩⟩
